import Mathlib

/-!
Shallow embedding of the access-gated mailbox-provisioning bot (src/app.py)
and proofs of the spec's claims about it.

Modelling conventions:
* Database rows (tables `users` and `emails`) are Lean structures; the two
  tables are lists inside a `DB` state record.
* External effects are parameters: the membership oracle's answer is an
  `OracleResult` value, the mailbox provider's domain list and the HTTP
  status of its `POST /accounts` response are plain arguments, the random
  source behind `random.choice` is a stream of draws `Nat → Fin 26`
  (one independent draw per generated character), and per-recipient
  delivery success in the broadcast is a predicate `Int → Bool`.
* Python exceptions that escape a handler are `Except.error ()`; in that
  case the session was never committed, so the database is unchanged.
* Note on the source text: the `reply_text` call opened at src/app.py line
  80 is missing its closing parenthesis (the adjacent comment says
  "Fixed parenthesis here" but the fix is absent), so the module as
  committed is a Python SyntaxError.  The definitions below embed the
  evident intended parse, with that call closed.
-/

namespace TgBot

/-- The alphabet `string.ascii_lowercase` used by `generate_random_string`. -/
def letters : List Char :=
  ['a', 'b', 'c', 'd', 'e', 'f', 'g', 'h', 'i', 'j', 'k', 'l', 'm',
   'n', 'o', 'p', 'q', 'r', 's', 't', 'u', 'v', 'w', 'x', 'y', 'z']

/-- `generate_random_string` (src/app.py lines 51-53):
`''.join(random.choice(letters) for i in range(length))`.
The random source is modelled as the stream `pick` of independent draws;
draw `i` selects index `pick i` of the 26-letter alphabet. -/
def generate_random_string (pick : Nat → Fin 26) (len : Nat) : String :=
  String.mk ((List.range len).map (fun i => letters.getD (pick i).val 'a'))

/-- Answer of the membership oracle (`context.bot.get_chat_member`):
either a status string, or any raised exception. -/
inductive OracleResult where
  | ok (status : String)
  | err
deriving DecidableEq, Repr

/-- `is_member` (src/app.py lines 55-61): status in
`['member', 'administrator', 'creator']`; any exception is caught and
yields `False`. -/
def is_member : OracleResult → Bool
  | .ok s => ["member", "administrator", "creator"].contains s
  | .err => false

/-- Row of the `users` table (src/app.py lines 28-33).  `join_date`
defaults to the creation time; `is_verified` defaults to `False`. -/
structure User where
  telegram_id : Int
  join_date : Nat
  is_verified : Bool
deriving DecidableEq, Repr

/-- Row of the `emails` table (src/app.py lines 35-41). -/
structure EmailAccount where
  user_id : Int
  email : String
  password : String
  created_at : Nat
deriving DecidableEq, Repr

/-- The durable state: the two tables of the backing store. -/
structure DB where
  users : List User
  emails : List EmailAccount
deriving DecidableEq, Repr

/-- The `users` table's unique constraint on `telegram_id`. -/
def DB.wf (db : DB) : Prop :=
  db.users.Pairwise (fun a b => a.telegram_id ≠ b.telegram_id)

instance (db : DB) : Decidable db.wf := by
  unfold DB.wf; infer_instance

/-- The spec's `markVerified` on a single record: the assignment
`db_user.is_verified = True` (src/app.py lines 74 and 94). -/
def setVerified (u : User) : User :=
  { u with is_verified := true }

/-- Effect of `db_user.is_verified = True; session.commit()` on the table:
the row the query returned — the first row matching the id — is updated. -/
def markVerifiedFirst (uid : Int) : List User → List User
  | [] => []
  | u :: rest =>
    if u.telegram_id == uid then setVerified u :: rest
    else u :: markVerifiedFirst uid rest

/-- The get-or-create step of `start` (src/app.py lines 66-71): query the
row by `telegram_id`; if absent, add a row with the defaults
(`join_date = now`, `is_verified = False`) and commit. -/
def getOrCreate (userId : Int) (now : Nat) (db : DB) : DB :=
  match db.users.find? (fun u => u.telegram_id == userId) with
  | some _ => db
  | none => { db with users := db.users ++ [⟨userId, now, false⟩] }

/-- `start` (src/app.py lines 63-84): get-or-create the user row, then
consult the gate; on `Member` mark verified and show the main menu,
otherwise show the join prompt.  Returns the new state and the texts
sent to the user. -/
def start (userId : Int) (gate : OracleResult) (now : Nat) (db : DB) :
    DB × List String :=
  let db1 := getOrCreate userId now db
  if is_member gate then
    ({ db1 with users := markVerifiedFirst userId db1.users }, ["Main Menu:"])
  else
    (db1, ["Please join our channel to use this bot!"])

/-- `verify` (src/app.py lines 86-101).  When the gate says member, the
handler assigns `db_user.is_verified = True`; if no row was found this
dereferences `None` and the handler dies with `AttributeError` before
any commit (`Except.error ()`, state unchanged). -/
def verify (userId : Int) (gate : OracleResult) (db : DB) :
    Except Unit (DB × List String) :=
  let found := db.users.find? (fun u => u.telegram_id == userId)
  if is_member gate then
    match found with
    | none => .error ()
    | some _ =>
      .ok ({ db with users := markVerifiedFirst userId db.users },
           ["Verification successful!", "Main Menu:"])
  else
    .ok (db, ["You haven't joined the channel yet!"])

/-- Result of the `new_email` handler: the resulting state, whether the
provider's domain list was fetched (`GET /domains`), whether the account
creation was posted (`POST /accounts`), and the handler's outcome —
`Except.error ()` when the handler dies on an uncaught exception,
otherwise the texts shown to the user. -/
structure ProvisionResult where
  db : DB
  domainsFetched : Bool
  accountPosted : Bool
  outcome : Except Unit (List String)
deriving Repr

/-- `new_email` (src/app.py lines 116-141): fetch the domain list, build
`address = <10 random lowercase letters>@<first domain>` and a 16-letter
password, POST the account; on HTTP 201 persist an `EmailAccount` row and
reveal the address, otherwise show the generic failure text.  An empty
domain list makes `['hydra:member'][0]` raise `IndexError` before the
POST.  The handler never consults the `users` table. -/
def new_email (userId : Int) (domains : List String) (createStatus : Nat)
    (pickLocal pickPass : Nat → Fin 26) (now : Nat) (db : DB) :
    ProvisionResult :=
  match domains with
  | [] => ⟨db, true, false, .error ()⟩
  | d :: _ =>
    let address := generate_random_string pickLocal 10 ++ "@" ++ d
    let password := generate_random_string pickPass 16
    if createStatus == 201 then
      ⟨{ db with emails := db.emails ++ [⟨userId, address, password, now⟩] },
       true, true, .ok ["Your new email: `" ++ address ++ "`"]⟩
    else
      ⟨db, true, true, .ok ["Failed to create email. Please try again."]⟩

/-- `check_inbox` (src/app.py lines 143-146): stub, no store access. -/
def check_inbox (db : DB) : DB × List String :=
  (db, ["Inbox feature coming soon!"])

/-- `delete_email` (src/app.py lines 148-151): stub, no store access. -/
def delete_email (db : DB) : DB × List String :=
  (db, ["Delete feature coming soon!"])

/-- Result of `notify_all`: resulting state, number of store queries
performed, ids that actually received the broadcast, and the texts sent
back to the caller. -/
structure BroadcastResult where
  db : DB
  storeReads : Nat
  delivered : List Int
  replies : List String
deriving Repr

/-- `notify_all` (src/app.py lines 153-174): if `str(caller id)` differs
from the configured `ADMIN_ID` string, return silently before touching
the store; otherwise (after a usage check) read the verified users and
attempt best-effort delivery to each, counting successes. -/
def notify_all (callerId : Int) (adminId : String) (args : List String)
    (sendOk : Int → Bool) (db : DB) : BroadcastResult :=
  if toString callerId != adminId then
    ⟨db, 0, [], []⟩
  else
    let message := String.intercalate " " args
    if message == "" then
      ⟨db, 0, [], ["Usage: /notifyall <message>"]⟩
    else
      let users := db.users.filter (fun u => u.is_verified)
      let delivered :=
        (users.filter (fun u => sendOk u.telegram_id)).map
          (fun u => u.telegram_id)
      ⟨db, 1, delivered,
       ["Notification sent to " ++ toString delivered.length ++ " users"]⟩

/-- One inbound action, carrying the answers of the external
collaborators it consults. -/
inductive Op where
  | opStart (userId : Int) (gate : OracleResult) (now : Nat)
  | opVerify (userId : Int) (gate : OracleResult)
  | opNewEmail (userId : Int) (domains : List String) (createStatus : Nat)
      (pickLocal pickPass : Nat → Fin 26) (now : Nat)
  | opCheckInbox
  | opDeleteEmail
  | opBroadcast (callerId : Int) (adminId : String) (args : List String)
      (sendOk : Int → Bool)

/-- State transformer of an action: the durable state after the handler
runs (a handler that dies on an exception leaves the state unchanged). -/
def applyOp : Op → DB → DB
  | .opStart uid g now, db => (start uid g now db).1
  | .opVerify uid g, db =>
    match verify uid g db with
    | .error _ => db
    | .ok (db2, _) => db2
  | .opNewEmail uid ds st pl pp now, db =>
    (new_email uid ds st pl pp now db).db
  | .opCheckInbox, db => (check_inbox db).1
  | .opDeleteEmail, db => (delete_email db).1
  | .opBroadcast c a as ok, db => (notify_all c a as ok db).db

/-- Whether the action consulted the membership gate and got `Member`. -/
def opMemberGate : Op → Bool
  | .opStart _ g _ => is_member g
  | .opVerify _ g => is_member g
  | _ => false

/-- The id whose verification status the action may change. -/
def opUserId : Op → Option Int
  | .opStart uid _ _ => some uid
  | .opVerify uid _ => some uid
  | _ => none

/-- A fixed random source (always the first letter), used to instantiate
theorems on concrete inputs. -/
def pick0 : Nat → Fin 26 := fun _ => 0

/-! Helper lemmas about `setVerified` and `markVerifiedFirst`. -/

theorem setVerified_telegram_id (u : User) :
    (setVerified u).telegram_id = u.telegram_id := rfl

theorem setVerified_join_date (u : User) :
    (setVerified u).join_date = u.join_date := rfl

theorem setVerified_is_verified (u : User) :
    (setVerified u).is_verified = true := rfl

theorem markVerifiedFirst_length (uid : Int) (l : List User) :
    (markVerifiedFirst uid l).length = l.length := by
  induction l with
  | nil => rfl
  | cons u rest ih =>
    by_cases h : (u.telegram_id == uid) = true
    · simp [markVerifiedFirst, h]
    · simp [markVerifiedFirst, h, ih]

theorem markVerifiedFirst_mem_inv {uid : Int} {l : List User} {v' : User}
    (h : v' ∈ markVerifiedFirst uid l) :
    ∃ v ∈ l, v' = v ∨ (v.telegram_id = uid ∧ v' = setVerified v) := by
  induction l with
  | nil => simp [markVerifiedFirst] at h
  | cons u rest ih =>
    by_cases hu : (u.telegram_id == uid) = true
    · rw [markVerifiedFirst, if_pos hu] at h
      rcases List.mem_cons.mp h with h1 | h1
      · exact ⟨u, List.mem_cons_self u rest,
          Or.inr ⟨by exact_mod_cast beq_iff_eq.mp hu, h1⟩⟩
      · exact ⟨v', List.mem_cons_of_mem u h1, Or.inl rfl⟩
    · rw [markVerifiedFirst, if_neg hu] at h
      rcases List.mem_cons.mp h with h1 | h1
      · exact ⟨u, List.mem_cons_self u rest, Or.inl h1⟩
      · obtain ⟨v, hv, hcase⟩ := ih h1
        exact ⟨v, List.mem_cons_of_mem u hv, hcase⟩

theorem markVerifiedFirst_exists_same (uid : Int) (l : List User) :
    ∀ u ∈ l, ∃ u' ∈ markVerifiedFirst uid l,
      u'.telegram_id = u.telegram_id ∧ u'.join_date = u.join_date ∧
        (u'.is_verified = u.is_verified ∨ u'.is_verified = true) := by
  induction l with
  | nil => intro u hu; cases hu
  | cons v rest ih =>
    intro u hu
    by_cases hv : (v.telegram_id == uid) = true
    · rw [markVerifiedFirst, if_pos hv]
      rcases List.mem_cons.mp hu with rfl | h1
      · exact ⟨setVerified u, List.mem_cons_self _ _, rfl, rfl, Or.inr rfl⟩
      · exact ⟨u, List.mem_cons_of_mem _ h1, rfl, rfl, Or.inl rfl⟩
    · rw [markVerifiedFirst, if_neg hv]
      rcases List.mem_cons.mp hu with rfl | h1
      · exact ⟨u, List.mem_cons_self _ _, rfl, rfl, Or.inl rfl⟩
      · obtain ⟨u', hu', hprops⟩ := ih u h1
        exact ⟨u', List.mem_cons_of_mem _ hu', hprops⟩

theorem markVerifiedFirst_exists_verified {uid : Int} {l : List User}
    (h : ∃ u ∈ l, u.telegram_id = uid) :
    ∃ u' ∈ markVerifiedFirst uid l,
      u'.telegram_id = uid ∧ u'.is_verified = true := by
  induction l with
  | nil => obtain ⟨u, hu, _⟩ := h; cases hu
  | cons v rest ih =>
    by_cases hv : (v.telegram_id == uid) = true
    · rw [markVerifiedFirst, if_pos hv]
      exact ⟨setVerified v, List.mem_cons_self _ _,
        by exact_mod_cast beq_iff_eq.mp hv, rfl⟩
    · rw [markVerifiedFirst, if_neg hv]
      obtain ⟨u, hu, huid⟩ := h
      rcases List.mem_cons.mp hu with rfl | h1
      · exact absurd (beq_iff_eq.mpr huid) hv
      · obtain ⟨u', hu', hprops⟩ := ih ⟨u, h1, huid⟩
        exact ⟨u', List.mem_cons_of_mem _ hu', hprops⟩

theorem markVerifiedFirst_append_fresh {uid : Int} {l : List User}
    (h : ∀ v ∈ l, (v.telegram_id == uid) = false) (x : User) :
    markVerifiedFirst uid (l ++ [x]) = l ++ markVerifiedFirst uid [x] := by
  induction l with
  | nil => rfl
  | cons v rest ih =>
    have hv : (v.telegram_id == uid) = false := h v (List.mem_cons_self _ _)
    have hrest : ∀ w ∈ rest, (w.telegram_id == uid) = false :=
      fun w hw => h w (List.mem_cons_of_mem _ hw)
    rw [List.cons_append, markVerifiedFirst, if_neg (by simp [hv]),
      ih hrest, List.cons_append]

theorem wf_same_id {l : List User}
    (hwf : l.Pairwise (fun a b => a.telegram_id ≠ b.telegram_id))
    {a b : User} (ha : a ∈ l) (hb : b ∈ l)
    (hid : b.telegram_id = a.telegram_id) : a = b := by
  induction l with
  | nil => cases ha
  | cons u rest ih =>
    obtain ⟨hhead, htail⟩ := List.pairwise_cons.mp hwf
    rcases List.mem_cons.mp ha with rfl | ha1
    · rcases List.mem_cons.mp hb with rfl | hb1
      · rfl
      · exact absurd hid.symm (hhead b hb1)
    · rcases List.mem_cons.mp hb with rfl | hb1
      · exact absurd hid (Ne.symm (hhead a ha1)).symm
      · exact ih htail ha1 hb1

theorem letters_getD_mem : ∀ j : Fin 26, letters.getD j.val 'a' ∈ letters := by
  decide

theorem new_email_users (uid : Int) (ds : List String) (st : Nat)
    (pl pp : Nat → Fin 26) (now : Nat) (db : DB) :
    (new_email uid ds st pl pp now db).db.users = db.users := by
  cases ds with
  | nil => rfl
  | cons d rest =>
    by_cases h : (st == 201) = true
    · simp [new_email, h]
    · simp only [Bool.not_eq_true] at h
      simp [new_email, h]

theorem new_email_emails_mem (uid : Int) (ds : List String) (st : Nat)
    (pl pp : Nat → Fin 26) (now : Nat) (db : DB) :
    ∀ e ∈ db.emails, e ∈ (new_email uid ds st pl pp now db).db.emails := by
  intro e he
  cases ds with
  | nil => exact he
  | cons d rest =>
    by_cases h : (st == 201) = true
    · simp [new_email, h]
      exact Or.inl he
    · simp only [Bool.not_eq_true] at h
      simp [new_email, h]
      exact he

theorem notify_all_db (c : Int) (a : String) (args : List String)
    (ok : Int → Bool) (db : DB) :
    (notify_all c a args ok db).db = db := by
  by_cases h1 : (toString c != a) = true
  · simp [notify_all, h1]
  · by_cases h2 : (" ".intercalate args == "") = true
    · simp [notify_all, h1, h2]
    · simp [notify_all, h1, h2]

theorem getOrCreate_emails (uid : Int) (now : Nat) (db : DB) :
    (getOrCreate uid now db).emails = db.emails := by
  unfold getOrCreate
  cases db.users.find? (fun u => u.telegram_id == uid) <;> rfl

theorem start_state_emails (uid : Int) (g : OracleResult) (now : Nat)
    (db : DB) : (start uid g now db).1.emails = db.emails := by
  unfold start
  by_cases hm : is_member g <;>
    simp [hm, getOrCreate_emails]

theorem verified_stable_markVerifiedFirst {uid : Int} {l : List User}
    (hwf : l.Pairwise (fun a b => a.telegram_id ≠ b.telegram_id))
    {u u' : User} (hu : u ∈ l) (hvt : u.is_verified = true)
    (hu' : u' ∈ markVerifiedFirst uid l)
    (hid : u'.telegram_id = u.telegram_id) : u'.is_verified = true := by
  obtain ⟨v, hv, hc⟩ := markVerifiedFirst_mem_inv hu'
  rcases hc with rfl | ⟨hvid, rfl⟩
  · have : u = u' := wf_same_id hwf hu hv hid
    rw [← this]; exact hvt
  · rfl

theorem transition_id_markVerifiedFirst {uid : Int} {l : List User}
    (hwf : l.Pairwise (fun a b => a.telegram_id ≠ b.telegram_id))
    {u u' : User} (hu : u ∈ l) (huf : u.is_verified = false)
    (hu' : u' ∈ markVerifiedFirst uid l)
    (hid : u'.telegram_id = u.telegram_id)
    (hvt : u'.is_verified = true) : u.telegram_id = uid := by
  obtain ⟨v, hv, hc⟩ := markVerifiedFirst_mem_inv hu'
  rcases hc with rfl | ⟨hvid, rfl⟩
  · have : u = u' := wf_same_id hwf hu hv hid
    rw [← this] at hvt
    rw [huf] at hvt
    exact absurd hvt (by simp)
  · rw [← hid]
    rw [setVerified_telegram_id]
    exact hvid

theorem no_transition_same_list {l : List User}
    (hwf : l.Pairwise (fun a b => a.telegram_id ≠ b.telegram_id)) :
    (∀ u ∈ l, u.is_verified = true →
      ∀ u' ∈ l, u'.telegram_id = u.telegram_id → u'.is_verified = true)
    ∧ (∀ u ∈ l, ∀ u' ∈ l, u'.telegram_id = u.telegram_id →
        u.is_verified = false → u'.is_verified = true → False) := by
  constructor
  · intro u hu hvt u' hu' hid
    have : u = u' := wf_same_id hwf hu hu' hid
    rw [← this]; exact hvt
  · intro u hu u' hu' hid huf hvt
    have : u = u' := wf_same_id hwf hu hu' hid
    rw [← this] at hvt
    rw [huf] at hvt
    exact absurd hvt (by simp)

theorem wf_append_fresh {l : List User} {x : User}
    (hwf : l.Pairwise (fun a b => a.telegram_id ≠ b.telegram_id))
    (hx : ∀ v ∈ l, v.telegram_id ≠ x.telegram_id) :
    (l ++ [x]).Pairwise (fun a b => a.telegram_id ≠ b.telegram_id) := by
  rw [List.pairwise_append]
  refine ⟨hwf, List.pairwise_singleton _ _, ?_⟩
  intro a ha b hb
  rw [List.mem_singleton.mp hb]
  exact hx a ha

/-- C1, counterexample: the claim says an unverified user's `new_email`
request is rejected with no provider call and nothing persisted.  In
fact, with user 7 stored unverified, the handler fetches the domain
list, posts the account creation, persists the mailbox row, and reveals
the address to that user. -/
theorem C1_counterexample :
    ((⟨[⟨7, 0, false⟩], []⟩ : DB).users.all (fun u => !u.is_verified)) = true
    ∧ (new_email 7 ["example.com"] 201 pick0 pick0 5
        ⟨[⟨7, 0, false⟩], []⟩).domainsFetched = true
    ∧ (new_email 7 ["example.com"] 201 pick0 pick0 5
        ⟨[⟨7, 0, false⟩], []⟩).accountPosted = true
    ∧ (new_email 7 ["example.com"] 201 pick0 pick0 5
        ⟨[⟨7, 0, false⟩], []⟩).db.emails
        = [⟨7, "aaaaaaaaaa@example.com", "aaaaaaaaaaaaaaaa", 5⟩]
    ∧ (new_email 7 ["example.com"] 201 pick0 pick0 5
        ⟨[⟨7, 0, false⟩], []⟩).outcome
        = .ok ["Your new email: `aaaaaaaaaa@example.com`"] :=
  ⟨rfl, rfl, rfl, rfl, rfl⟩

/-- C1, amended: `new_email` performs no verified-check of its own — for
every store state (the `users` table is never read, so a `verified ==
false` record changes nothing) it fetches the provider's domain list,
posts the account creation whenever that list is non-empty, and behaves
identically whatever the `users` table holds.  Unverified users are kept
from the action only by menu visibility. -/
theorem C1_amended_new_email_has_no_verified_guard :
    ∀ (uid : Int) (domains : List String) (st : Nat)
      (pl pp : Nat → Fin 26) (now : Nat)
      (users1 users2 : List User) (emails : List EmailAccount),
      (new_email uid domains st pl pp now ⟨users1, emails⟩).domainsFetched
        = true
      ∧ (new_email uid domains st pl pp now ⟨users1, emails⟩).accountPosted
          = !domains.isEmpty
      ∧ (new_email uid domains st pl pp now ⟨users1, emails⟩).db.users
          = users1
      ∧ (new_email uid domains st pl pp now ⟨users1, emails⟩).db.emails
          = (new_email uid domains st pl pp now ⟨users2, emails⟩).db.emails
      ∧ (new_email uid domains st pl pp now ⟨users1, emails⟩).outcome
          = (new_email uid domains st pl pp now ⟨users2, emails⟩).outcome := by
  intro uid domains st pl pp now users1 users2 emails
  cases domains with
  | nil => exact ⟨rfl, rfl, rfl, rfl, rfl⟩
  | cons d ds =>
    by_cases h : (st == 201) = true
    · simp [new_email, h]
    · simp only [Bool.not_eq_true] at h
      simp [new_email, h]

/-- C2: when the provider's `createAccount` call fails (status is not
201), `new_email` persists nothing — the whole store is unchanged — and
the user gets the generic failure message. -/
theorem C2_provider_failure_persists_nothing :
    ∀ (uid : Int) (d : String) (ds : List String) (st : Nat)
      (pl pp : Nat → Fin 26) (now : Nat) (db : DB), st ≠ 201 →
      (new_email uid (d :: ds) st pl pp now db).db = db
      ∧ (new_email uid (d :: ds) st pl pp now db).outcome
          = .ok ["Failed to create email. Please try again."] := by
  intro uid d ds st pl pp now db hst
  have h : (st == 201) = false := by simpa using hst
  simp [new_email, h]

/-- C2, witness at status 400. -/
theorem C2_provider_failure_persists_nothing_witness :
    (400 ≠ 201)
    ∧ (new_email 7 ["example.com"] 400 pick0 pick0 5
        ⟨[⟨7, 0, true⟩], []⟩).db = ⟨[⟨7, 0, true⟩], []⟩
    ∧ (new_email 7 ["example.com"] 400 pick0 pick0 5
        ⟨[⟨7, 0, true⟩], []⟩).outcome
        = .ok ["Failed to create email. Please try again."] :=
  ⟨by decide,
   (C2_provider_failure_persists_nothing 7 "example.com" [] 400 pick0 pick0 5
     ⟨[⟨7, 0, true⟩], []⟩ (by decide)).1,
   (C2_provider_failure_persists_nothing 7 "example.com" [] 400 pick0 pick0 5
     ⟨[⟨7, 0, true⟩], []⟩ (by decide)).2⟩

/-- C3: over a store whose `users` table satisfies its unique-id
constraint, every action keeps `verified` monotonic (a record verified
before stays verified after, for the record with the same id); any
false-to-true change implies the action's membership gate returned
`Member` and the changed record is the acting user's; and, conversely,
`start` with a `Member` gate always leaves the acting user verified, as
does `verify` when the record exists. -/
theorem C3_verified_flag_monotonic_and_gated :
    (∀ (op : Op) (db : DB), db.wf →
      (∀ u ∈ db.users, u.is_verified = true →
        ∀ u' ∈ (applyOp op db).users,
          u'.telegram_id = u.telegram_id → u'.is_verified = true)
      ∧ (∀ u ∈ db.users, ∀ u' ∈ (applyOp op db).users,
          u'.telegram_id = u.telegram_id → u.is_verified = false →
          u'.is_verified = true →
          opMemberGate op = true ∧ opUserId op = some u.telegram_id))
    ∧ (∀ (uid : Int) (g : OracleResult) (now : Nat) (db : DB),
        is_member g = true →
        ∃ u' ∈ (applyOp (Op.opStart uid g now) db).users,
          u'.telegram_id = uid ∧ u'.is_verified = true)
    ∧ (∀ (uid : Int) (g : OracleResult) (db : DB),
        is_member g = true → (∃ u ∈ db.users, u.telegram_id = uid) →
        ∃ u' ∈ (applyOp (Op.opVerify uid g) db).users,
          u'.telegram_id = uid ∧ u'.is_verified = true) := by
  have unchanged :
      ∀ (op : Op) (db : DB), db.wf → (applyOp op db).users = db.users →
        (∀ u ∈ db.users, u.is_verified = true →
          ∀ u' ∈ (applyOp op db).users,
            u'.telegram_id = u.telegram_id → u'.is_verified = true)
        ∧ (∀ u ∈ db.users, ∀ u' ∈ (applyOp op db).users,
            u'.telegram_id = u.telegram_id → u.is_verified = false →
            u'.is_verified = true →
            opMemberGate op = true ∧ opUserId op = some u.telegram_id) := by
    intro op db hwf hres
    constructor
    · intro u hu hvt u' hu' hid
      rw [hres] at hu'
      exact (no_transition_same_list hwf).1 u hu hvt u' hu' hid
    · intro u hu u' hu' hid huf hvt
      rw [hres] at hu'
      exact ((no_transition_same_list hwf).2 u hu u' hu' hid huf hvt).elim
  refine ⟨?_, ?_, ?_⟩
  · intro op db hwf
    cases op with
    | opStart uid g now =>
      cases hf : db.users.find? (fun w => w.telegram_id == uid) with
      | some u0 =>
        have hbase : (getOrCreate uid now db).users = db.users := by
          simp [getOrCreate, hf]
        by_cases hm : is_member g
        · have hres : (applyOp (Op.opStart uid g now) db).users
              = markVerifiedFirst uid db.users := by
            simp [applyOp, start, hm, hbase]
          constructor
          · intro u hu hvt u' hu' hid
            rw [hres] at hu'
            exact verified_stable_markVerifiedFirst hwf hu hvt hu' hid
          · intro u hu u' hu' hid huf hvt
            rw [hres] at hu'
            have huid :=
              transition_id_markVerifiedFirst hwf hu huf hu' hid hvt
            exact ⟨by simp [opMemberGate, hm], by simp [opUserId, huid]⟩
        · have hres : (applyOp (Op.opStart uid g now) db).users
              = db.users := by
            simp [applyOp, start, hm, hbase]
          exact unchanged _ db hwf hres
      | none =>
        have hfresh : ∀ v ∈ db.users, (v.telegram_id == uid) = false := by
          intro v hv
          have := List.find?_eq_none.mp hf v hv
          simpa using this
        have hfresh2 : ∀ v ∈ db.users,
            v.telegram_id ≠ (⟨uid, now, false⟩ : User).telegram_id := by
          intro v hv
          have := hfresh v hv
          simpa using this
        have hwf2 : (db.users ++ [(⟨uid, now, false⟩ : User)]).Pairwise
            (fun a b => a.telegram_id ≠ b.telegram_id) :=
          wf_append_fresh hwf hfresh2
        have hbase : (getOrCreate uid now db).users
            = db.users ++ [⟨uid, now, false⟩] := by
          simp [getOrCreate, hf]
        by_cases hm : is_member g
        · have hres : (applyOp (Op.opStart uid g now) db).users
              = markVerifiedFirst uid (db.users ++ [⟨uid, now, false⟩]) := by
            simp [applyOp, start, hm, hbase]
          constructor
          · intro u hu hvt u' hu' hid
            rw [hres] at hu'
            exact verified_stable_markVerifiedFirst hwf2
              (List.mem_append_left _ hu) hvt hu' hid
          · intro u hu u' hu' hid huf hvt
            rw [hres] at hu'
            have huid := transition_id_markVerifiedFirst hwf2
              (List.mem_append_left _ hu) huf hu' hid hvt
            exact ⟨by simp [opMemberGate, hm], by simp [opUserId, huid]⟩
        · have hres : (applyOp (Op.opStart uid g now) db).users
              = db.users ++ [⟨uid, now, false⟩] := by
            simp [applyOp, start, hm, hbase]
          constructor
          · intro u hu hvt u' hu' hid
            rw [hres] at hu'
            rcases List.mem_append.mp hu' with h1 | h1
            · have : u = u' := wf_same_id hwf hu h1 hid
              rw [← this]; exact hvt
            · exfalso
              rw [List.mem_singleton.mp h1] at hid
              exact hfresh2 u hu hid.symm
          · intro u hu u' hu' hid huf hvt
            rw [hres] at hu'
            exfalso
            rcases List.mem_append.mp hu' with h1 | h1
            · have : u = u' := wf_same_id hwf hu h1 hid
              rw [← this] at hvt
              rw [huf] at hvt
              exact absurd hvt (by simp)
            · rw [List.mem_singleton.mp h1] at hvt
              exact absurd hvt (by simp)
    | opVerify uid g =>
      by_cases hm : is_member g
      · cases hf : db.users.find? (fun w => w.telegram_id == uid) with
        | none =>
          have hres : (applyOp (Op.opVerify uid g) db).users = db.users := by
            simp [applyOp, verify, hm, hf]
          exact unchanged _ db hwf hres
        | some u0 =>
          have hres : (applyOp (Op.opVerify uid g) db).users
              = markVerifiedFirst uid db.users := by
            simp [applyOp, verify, hm, hf]
          constructor
          · intro u hu hvt u' hu' hid
            rw [hres] at hu'
            exact verified_stable_markVerifiedFirst hwf hu hvt hu' hid
          · intro u hu u' hu' hid huf hvt
            rw [hres] at hu'
            have huid :=
              transition_id_markVerifiedFirst hwf hu huf hu' hid hvt
            exact ⟨by simp [opMemberGate, hm], by simp [opUserId, huid]⟩
      · have hres : (applyOp (Op.opVerify uid g) db).users = db.users := by
          simp [applyOp, verify, hm]
        exact unchanged _ db hwf hres
    | opNewEmail uid ds st pl pp now =>
      exact unchanged _ db hwf (new_email_users uid ds st pl pp now db)
    | opCheckInbox => exact unchanged _ db hwf rfl
    | opDeleteEmail => exact unchanged _ db hwf rfl
    | opBroadcast c a args ok =>
      exact unchanged _ db hwf
        (congrArg DB.users (notify_all_db c a args ok db))
  · intro uid g now db hm
    have hres : (applyOp (Op.opStart uid g now) db).users
        = markVerifiedFirst uid (getOrCreate uid now db).users := by
      simp [applyOp, start, hm]
    rw [hres]
    apply markVerifiedFirst_exists_verified
    cases hf : db.users.find? (fun w => w.telegram_id == uid) with
    | some u0 =>
      have hmem := List.mem_of_find?_eq_some hf
      have hid : u0.telegram_id = uid := by
        have := List.find?_some hf
        simpa using this
      refine ⟨u0, ?_, hid⟩
      simp [getOrCreate, hf]
      exact hmem
    | none =>
      refine ⟨⟨uid, now, false⟩, ?_, rfl⟩
      simp [getOrCreate, hf]
  · intro uid g db hm hex
    obtain ⟨u, hu, huid⟩ := hex
    cases hf : db.users.find? (fun w => w.telegram_id == uid) with
    | none =>
      exfalso
      have := List.find?_eq_none.mp hf u hu
      exact this (by simpa using huid)
    | some u0 =>
      have hres : (applyOp (Op.opVerify uid g) db).users
          = markVerifiedFirst uid db.users := by
        simp [applyOp, verify, hm, hf]
      rw [hres]
      exact markVerifiedFirst_exists_verified ⟨u, hu, huid⟩

/-- C3, witness: a well-formed store; `start` with a `Member` gate
verifies the acting user; monotonicity instantiated on a stub action. -/
theorem C3_verified_flag_monotonic_and_gated_witness :
    (⟨[⟨7, 0, true⟩], []⟩ : DB).wf
    ∧ is_member (OracleResult.ok "member") = true
    ∧ (∃ u' ∈ (applyOp (Op.opStart 9 (OracleResult.ok "member") 4)
        ⟨[⟨7, 0, true⟩], []⟩).users,
        u'.telegram_id = 9 ∧ u'.is_verified = true)
    ∧ (⟨7, 0, true⟩ : User).is_verified = true :=
  ⟨by decide, by decide,
   C3_verified_flag_monotonic_and_gated.2.1 9 (OracleResult.ok "member") 4
     ⟨[⟨7, 0, true⟩], []⟩ (by decide),
   (C3_verified_flag_monotonic_and_gated.1 Op.opCheckInbox
     ⟨[⟨7, 0, true⟩], []⟩ (by decide)).1
     ⟨7, 0, true⟩ (by decide) rfl ⟨7, 0, true⟩ (by decide) rfl⟩

/-- C4: the membership check returns `Member` exactly for the roles
member, administrator and creator, and maps every oracle failure to a
plain negative answer instead of propagating it. -/
theorem C4_membership_gate_fail_closed :
    (∀ s : String, is_member (OracleResult.ok s) = true ↔
      (s = "member" ∨ s = "administrator" ∨ s = "creator"))
    ∧ is_member OracleResult.err = false := by
  refine ⟨fun s => ?_, rfl⟩
  simp [is_member, List.contains]

/-- C4, witness on the administrator role and the error case. -/
theorem C4_membership_gate_fail_closed_witness :
    is_member (OracleResult.ok "administrator") = true
    ∧ is_member OracleResult.err = false :=
  ⟨(C4_membership_gate_fail_closed.1 "administrator").mpr
    (Or.inr (Or.inl rfl)),
   C4_membership_gate_fail_closed.2⟩

/-- C5: a generated string has exactly the requested length, each of its
characters is one of the 26 lowercase letters, and character `i` is
exactly the alphabet entry selected by the independent draw `pick i`
(so uniformity of the draws transfers to the characters); and with a
non-empty domain list and a 201 response, the persisted address is the
10-letter local part joined by `@` to the first domain, with a 16-letter
secret. -/
theorem C5_generated_address_shape :
    (∀ (pick : Nat → Fin 26) (n : Nat),
      (generate_random_string pick n).length = n
      ∧ (∀ c ∈ (generate_random_string pick n).data, c ∈ letters)
      ∧ (∀ i : Nat, i < n →
          (generate_random_string pick n).data[i]?
            = some (letters.getD (pick i).val 'a')))
    ∧ (∀ (uid : Int) (d : String) (ds : List String)
        (pl pp : Nat → Fin 26) (now : Nat) (db : DB),
        (new_email uid (d :: ds) 201 pl pp now db).db.emails
          = db.emails ++
            [⟨uid, generate_random_string pl 10 ++ "@" ++ d,
              generate_random_string pp 16, now⟩]) := by
  constructor
  · intro pick n
    refine ⟨?_, ?_, ?_⟩
    · simp [generate_random_string, String.length]
    · intro c hc
      simp only [generate_random_string] at hc
      obtain ⟨i, _, rfl⟩ := List.mem_map.mp hc
      exact letters_getD_mem (pick i)
    · intro i hi
      simp [generate_random_string, List.getElem?_map, List.getElem?_range, hi]
  · intro uid d ds pl pp now db
    simp [new_email]

/-- C5, witness at the fixed draw stream and domain example.com. -/
theorem C5_generated_address_shape_witness :
    (generate_random_string pick0 10).length = 10
    ∧ (3 < 10)
    ∧ (generate_random_string pick0 10).data[3]?
        = some (letters.getD (pick0 3).val 'a')
    ∧ (new_email 7 ["example.com"] 201 pick0 pick0 5 ⟨[], []⟩).db.emails
        = ([] : List EmailAccount) ++
          [⟨7, generate_random_string pick0 10 ++ "@" ++ "example.com",
            generate_random_string pick0 16, 5⟩] :=
  ⟨(C5_generated_address_shape.1 pick0 10).1, by decide,
   (C5_generated_address_shape.1 pick0 10).2.2 3 (by decide),
   C5_generated_address_shape.2 7 "example.com" [] pick0 pick0 5 ⟨[], []⟩⟩

/-- C6: `start` has get-or-create semantics — with no stored record it
creates exactly one, with `joinedAt = now` and `verified` equal to the
gate's verdict; with a stored record it creates none and preserves every
record's id and join date; and the reply is the menu exactly on a
`Member` verdict, the join prompt otherwise.  (Proved over the intended
parse of src/app.py line 80; the committed text is a SyntaxError there.) -/
theorem C6_start_get_or_create_semantics :
    ∀ (uid : Int) (g : OracleResult) (now : Nat) (db : DB),
      (db.users.find? (fun u => u.telegram_id == uid) = none →
        (start uid g now db).1.users.length = db.users.length + 1
        ∧ ∃ u' ∈ (start uid g now db).1.users,
            u'.telegram_id = uid ∧ u'.join_date = now
            ∧ u'.is_verified = is_member g)
      ∧ (∀ u0 : User,
          db.users.find? (fun u => u.telegram_id == uid) = some u0 →
          (start uid g now db).1.users.length = db.users.length
          ∧ ∀ u ∈ db.users, ∃ u' ∈ (start uid g now db).1.users,
              u'.telegram_id = u.telegram_id ∧ u'.join_date = u.join_date)
      ∧ (start uid g now db).2
          = if is_member g then ["Main Menu:"]
            else ["Please join our channel to use this bot!"] := by
  intro uid g now db
  refine ⟨?_, ?_, ?_⟩
  · intro hf
    have hfresh : ∀ v ∈ db.users, (v.telegram_id == uid) = false := by
      intro v hv
      have := List.find?_eq_none.mp hf v hv
      simpa using this
    have hbase : (getOrCreate uid now db).users
        = db.users ++ [⟨uid, now, false⟩] := by
      simp [getOrCreate, hf]
    have hsingle : markVerifiedFirst uid [(⟨uid, now, false⟩ : User)]
        = [setVerified ⟨uid, now, false⟩] := by
      simp [markVerifiedFirst]
    by_cases hm : is_member g
    · have hres : (start uid g now db).1.users
          = db.users ++ [setVerified ⟨uid, now, false⟩] := by
        simp [start, hm, hbase, markVerifiedFirst_append_fresh hfresh,
          hsingle]
      rw [hres]
      refine ⟨by simp, setVerified ⟨uid, now, false⟩,
        List.mem_append_right _ (List.mem_singleton.mpr rfl), rfl, rfl, ?_⟩
      simp [setVerified, hm]
    · have hres : (start uid g now db).1.users
          = db.users ++ [(⟨uid, now, false⟩ : User)] := by
        simp [start, hm, hbase]
      rw [hres]
      refine ⟨by simp, ⟨uid, now, false⟩,
        List.mem_append_right _ (List.mem_singleton.mpr rfl), rfl, rfl, ?_⟩
      simp [hm]
  · intro u0 hf
    have hbase : (getOrCreate uid now db).users = db.users := by
      simp [getOrCreate, hf]
    by_cases hm : is_member g
    · have hres : (start uid g now db).1.users
          = markVerifiedFirst uid db.users := by
        simp [start, hm, hbase]
      rw [hres]
      refine ⟨markVerifiedFirst_length uid db.users, ?_⟩
      intro u hu
      obtain ⟨u', hu', h1, h2, _⟩ :=
        markVerifiedFirst_exists_same uid db.users u hu
      exact ⟨u', hu', h1, h2⟩
    · have hres : (start uid g now db).1.users = db.users := by
        simp [start, hm, hbase]
      rw [hres]
      exact ⟨rfl, fun u hu => ⟨u, hu, rfl, rfl⟩⟩
  · by_cases hm : is_member g <;> simp [start, hm]

/-- C6, witness: a first-contact user with a `Member` verdict. -/
theorem C6_start_get_or_create_semantics_witness :
    ((⟨[], []⟩ : DB).users.find? (fun u => u.telegram_id == 7) = none)
    ∧ ((start 7 (OracleResult.ok "member") 3 ⟨[], []⟩).1.users.length
        = (⟨[], []⟩ : DB).users.length + 1
      ∧ ∃ u' ∈ (start 7 (OracleResult.ok "member") 3 ⟨[], []⟩).1.users,
          u'.telegram_id = 7 ∧ u'.join_date = 3
          ∧ u'.is_verified = is_member (OracleResult.ok "member")) :=
  ⟨rfl,
   (C6_start_get_or_create_semantics 7 (OracleResult.ok "member") 3
     ⟨[], []⟩).1 rfl⟩

/-- C7: `markVerified` is idempotent — on a record it fixes `verified`
to true and changes no other field, applying it twice equals applying
it once, and the same holds for its action on the whole table. -/
theorem C7_markVerified_idempotent :
    (∀ u : User,
      setVerified (setVerified u) = setVerified u ∧
      (setVerified u).is_verified = true ∧
      (setVerified u).join_date = u.join_date ∧
      (setVerified u).telegram_id = u.telegram_id)
    ∧ (∀ (uid : Int) (l : List User),
        markVerifiedFirst uid (markVerifiedFirst uid l)
          = markVerifiedFirst uid l) := by
  refine ⟨fun u => ⟨rfl, rfl, rfl, rfl⟩, fun uid l => ?_⟩
  induction l with
  | nil => rfl
  | cons u rest ih =>
    by_cases h : (u.telegram_id == uid) = true
    · simp [markVerifiedFirst, h, setVerified]
    · simp [markVerifiedFirst, h, ih]

/-- C8: a broadcast from any id whose decimal string differs from the
configured operator id is a silent no-op — zero deliveries, zero store
reads, both stores unchanged, no reply; the check is string equality. -/
theorem C8_broadcast_nonoperator_silent_noop :
    ∀ (callerId : Int) (adminId : String) (args : List String)
      (sendOk : Int → Bool) (db : DB), toString callerId ≠ adminId →
      notify_all callerId adminId args sendOk db = ⟨db, 0, [], []⟩ := by
  intro c a args sendOk db h
  have hb : (toString c != a) = true := bne_iff_ne.mpr h
  simp [notify_all, hb]

/-- C8, witness: caller 999 against operator id "42". -/
theorem C8_broadcast_nonoperator_silent_noop_witness :
    toString (999 : Int) ≠ "42"
    ∧ notify_all 999 "42" ["hello"] (fun _ => true) ⟨[⟨7, 0, true⟩], []⟩
        = ⟨⟨[⟨7, 0, true⟩], []⟩, 0, [], []⟩ :=
  ⟨by decide,
   C8_broadcast_nonoperator_silent_noop 999 "42" ["hello"] (fun _ => true)
     ⟨[⟨7, 0, true⟩], []⟩ (by decide)⟩

/-- C9: with no stored record for the user, `verify` creates none and
leaves the store untouched; when the gate says `Member` it errors (the
`None` dereference) before any mutation, and when the gate denies it
merely replies. -/
theorem C9_verify_absent_record_errors :
    ∀ (uid : Int) (g : OracleResult) (db : DB),
      db.users.find? (fun u => u.telegram_id == uid) = none →
      applyOp (Op.opVerify uid g) db = db
      ∧ (is_member g = true → verify uid g db = .error ())
      ∧ (is_member g = false →
          verify uid g db
            = .ok (db, ["You haven't joined the channel yet!"])) := by
  intro uid g db hfind
  cases hm : is_member g
  · simp [applyOp, verify, hm]
  · simp [applyOp, verify, hm, hfind]

/-- C9, witness: empty store, `Member` verdict. -/
theorem C9_verify_absent_record_errors_witness :
    ((⟨[], []⟩ : DB).users.find? (fun u => u.telegram_id == 7) = none)
    ∧ applyOp (Op.opVerify 7 (OracleResult.ok "member")) ⟨[], []⟩
        = ⟨[], []⟩
    ∧ verify 7 (OracleResult.ok "member") ⟨[], []⟩ = Except.error () :=
  ⟨rfl,
   (C9_verify_absent_record_errors 7 (OracleResult.ok "member")
     ⟨[], []⟩ rfl).1,
   (C9_verify_absent_record_errors 7 (OracleResult.ok "member")
     ⟨[], []⟩ rfl).2.1 (by decide)⟩

/-- C10: the inbox and deletion stubs return the store unchanged, and no
action of the system ever deletes a user record (same id and join date
survive every action) or a mailbox record (every stored row survives
every action). -/
theorem C10_stubs_frame_and_no_deletion :
    (∀ db : DB, (check_inbox db).1 = db)
    ∧ (∀ db : DB, (delete_email db).1 = db)
    ∧ (∀ (op : Op) (db : DB), ∀ u ∈ db.users,
        ∃ u' ∈ (applyOp op db).users,
          u'.telegram_id = u.telegram_id ∧ u'.join_date = u.join_date)
    ∧ (∀ (op : Op) (db : DB), ∀ e ∈ db.emails,
        e ∈ (applyOp op db).emails) := by
  refine ⟨fun db => rfl, fun db => rfl, ?_, ?_⟩
  · intro op db u hu
    cases op with
    | opStart uid g now =>
      have hbase : ∀ v ∈ db.users, v ∈ (getOrCreate uid now db).users := by
        intro v hv
        unfold getOrCreate
        cases db.users.find? (fun w => w.telegram_id == uid) with
        | some _ => exact hv
        | none => exact List.mem_append_left _ hv
      by_cases hm : is_member g
      · have hres : (applyOp (Op.opStart uid g now) db).users
            = markVerifiedFirst uid (getOrCreate uid now db).users := by
          simp [applyOp, start, hm]
        rw [hres]
        obtain ⟨u', hu', h1, h2, _⟩ :=
          markVerifiedFirst_exists_same uid (getOrCreate uid now db).users u
            (hbase u hu)
        exact ⟨u', hu', h1, h2⟩
      · have hres : (applyOp (Op.opStart uid g now) db).users
            = (getOrCreate uid now db).users := by
          simp [applyOp, start, hm]
        rw [hres]
        exact ⟨u, hbase u hu, rfl, rfl⟩
    | opVerify uid g =>
      by_cases hm : is_member g
      · cases hf : db.users.find? (fun w => w.telegram_id == uid) with
        | none =>
          have hres : applyOp (Op.opVerify uid g) db = db := by
            simp [applyOp, verify, hm, hf]
          rw [hres]
          exact ⟨u, hu, rfl, rfl⟩
        | some u0 =>
          have hres : (applyOp (Op.opVerify uid g) db).users
              = markVerifiedFirst uid db.users := by
            simp [applyOp, verify, hm, hf]
          rw [hres]
          obtain ⟨u', hu', h1, h2, _⟩ :=
            markVerifiedFirst_exists_same uid db.users u hu
          exact ⟨u', hu', h1, h2⟩
      · have hres : applyOp (Op.opVerify uid g) db = db := by
          simp [applyOp, verify, hm]
        rw [hres]
        exact ⟨u, hu, rfl, rfl⟩
    | opNewEmail uid ds st pl pp now =>
      have hres : (applyOp (Op.opNewEmail uid ds st pl pp now) db).users
          = db.users := new_email_users uid ds st pl pp now db
      rw [hres]
      exact ⟨u, hu, rfl, rfl⟩
    | opCheckInbox => exact ⟨u, hu, rfl, rfl⟩
    | opDeleteEmail => exact ⟨u, hu, rfl, rfl⟩
    | opBroadcast c a args ok =>
      have hres : applyOp (Op.opBroadcast c a args ok) db = db :=
        notify_all_db c a args ok db
      rw [hres]
      exact ⟨u, hu, rfl, rfl⟩
  · intro op db e he
    cases op with
    | opStart uid g now =>
      have hres : (applyOp (Op.opStart uid g now) db).emails = db.emails :=
        start_state_emails uid g now db
      rw [hres]; exact he
    | opVerify uid g =>
      by_cases hm : is_member g
      · cases hf : db.users.find? (fun w => w.telegram_id == uid) with
        | none => simpa [applyOp, verify, hm, hf] using he
        | some u0 => simpa [applyOp, verify, hm, hf] using he
      · simpa [applyOp, verify, hm] using he
    | opNewEmail uid ds st pl pp now =>
      exact new_email_emails_mem uid ds st pl pp now db e he
    | opCheckInbox => exact he
    | opDeleteEmail => exact he
    | opBroadcast c a args ok =>
      have hres : applyOp (Op.opBroadcast c a args ok) db = db :=
        notify_all_db c a args ok db
      rw [hres]; exact he

/-- C10, witness: a verified user and a stored mailbox both survive a
`start` action. -/
theorem C10_stubs_frame_and_no_deletion_witness :
    ((⟨7, 0, true⟩ : User)
        ∈ (⟨[⟨7, 0, true⟩], [⟨7, "a@b", "p", 1⟩]⟩ : DB).users)
    ∧ (∃ u' ∈ (applyOp (Op.opStart 7 (OracleResult.ok "member") 2)
        ⟨[⟨7, 0, true⟩], [⟨7, "a@b", "p", 1⟩]⟩).users,
        u'.telegram_id = (⟨7, 0, true⟩ : User).telegram_id
        ∧ u'.join_date = (⟨7, 0, true⟩ : User).join_date)
    ∧ ((⟨7, "a@b", "p", 1⟩ : EmailAccount)
        ∈ (applyOp (Op.opStart 7 (OracleResult.ok "member") 2)
            ⟨[⟨7, 0, true⟩], [⟨7, "a@b", "p", 1⟩]⟩).emails) :=
  ⟨by decide,
   C10_stubs_frame_and_no_deletion.2.2.1
     (Op.opStart 7 (OracleResult.ok "member") 2)
     ⟨[⟨7, 0, true⟩], [⟨7, "a@b", "p", 1⟩]⟩ ⟨7, 0, true⟩ (by decide),
   C10_stubs_frame_and_no_deletion.2.2.2
     (Op.opStart 7 (OracleResult.ok "member") 2)
     ⟨[⟨7, 0, true⟩], [⟨7, "a@b", "p", 1⟩]⟩ ⟨7, "a@b", "p", 1⟩ (by decide)⟩

end TgBot
